import Mathlib

/-!
Shallow embedding of the `layla_client` OCR client library
(`src/layla_client/core/layla_service.py` and
`src/layla_client/datamodels/{responses,exceptions}.py`).

The network is modelled by passing each HTTP round trip's outcome as an
explicit argument, and the polling loop receives a finite script (list) of
per-iteration transport outcomes.  Wall-clock time is modelled by an
`elapsed` accumulator that advances by `poll_interval` at each
`time.sleep(poll_interval)` call; `time.time()` between two sleeps is
treated as constant, so `elapsed` starts at `0` when the loop records its
start time.
-/

/-- Field-for-field translation of `OcrJobResponse` (responses.py). -/
structure OcrJobResponse where
  job_id : String
  status : String
  model : String
  message : String
  result : Option String
  deriving Repr, DecidableEq

/-- Field-for-field translation of `JobStatusResponse` (responses.py).
Note there is no `markdown` field: the OCR result lives in `result`. -/
structure JobStatusResponse where
  job_id : String
  status : String
  model : Option String
  progress : Option String
  result : Option String
  error : Option String
  deriving Repr, DecidableEq

/-- Field-for-field translation of `JobDeleteResponse` (responses.py). -/
structure JobDeleteResponse where
  job_id : String
  message : String
  deriving Repr, DecidableEq

/-- The Python exceptions that can cross the code under study
(exceptions.py plus the relevant builtins).  One constructor per Python
class: `laylaError` is the concrete base class `LaylaError` itself, which
the source raises directly for 404s and protocol violations;
`attributeError` is the builtin `AttributeError` raised by attribute
access on a missing field; `otherError` stands for any further
`Exception` (used to model exceptions raised inside caller-supplied
callbacks). -/
inductive PyError where
  | laylaError (msg : String)
  | jobTimeoutError (msg : String)
  | jobFailedError (msg : String)
  | networkError (msg : String)
  | authenticationError (msg : String)
  | attributeError (msg : String)
  | otherError (msg : String)
  deriving Repr, DecidableEq

/-- The Python class of the exception, as `type(e).__name__`.  In the
source taxonomy (exceptions.py) `LaylaError` is a concrete class and the
root of the hierarchy; the other four are subclasses of it. -/
def PyError.className : PyError → String
  | .laylaError _ => "LaylaError"
  | .jobTimeoutError _ => "JobTimeoutError"
  | .jobFailedError _ => "JobFailedError"
  | .networkError _ => "NetworkError"
  | .authenticationError _ => "AuthenticationError"
  | .attributeError _ => "AttributeError"
  | .otherError _ => "Exception"

/-- Test whether the exception is an instance of `LaylaError`
(`isinstance(e, LaylaError)` in exceptions.py terms). -/
def PyError.isLaylaError : PyError → Bool
  | .laylaError _ => true
  | .jobTimeoutError _ => true
  | .jobFailedError _ => true
  | .networkError _ => true
  | .authenticationError _ => true
  | .attributeError _ => false
  | .otherError _ => false

/-- Python truthiness of an `Optional[str]` value: `None` and the empty
string are falsy, every other string is truthy. -/
def pyTruthy : Option String → Bool
  | none => false
  | some s => decide (s ≠ "")

/-- Python `x or d` for `x : Optional[str]`: yields `d` when `x` is
`None` or the empty string (both falsy), else the string itself. -/
def pyOrElse (o : Option String) (d : String) : String :=
  match o with
  | none => d
  | some s => if s = "" then d else s

/-- Attribute access on a `JobStatusResponse`, as Python performs it.
Pydantic models expose exactly their declared fields and raise the
builtin `AttributeError` for any other attribute name.  Only the four
`Optional[str]` fields are reachable from `_wait_for_completion`, so the
lookup is restricted to those. -/
def JobStatusResponse.getattr (r : JobStatusResponse) (name : String) :
    Except PyError (Option String) :=
  if name = "model" then .ok r.model
  else if name = "progress" then .ok r.progress
  else if name = "result" then .ok r.result
  else if name = "error" then .ok r.error
  else .error (.attributeError (s!"JobStatusResponse object has no attribute {name}"))

/-- Outcome of one HTTP round trip as observed by the client code:
either a response carrying the status code, reason phrase, request url,
raw body text and (for when the success path parses it) the decoded JSON
body, or a `requests.RequestException` raised by the transport library. -/
inductive HttpOutcome (β : Type) where
  | response (status_code : Nat) (reason url text : String) (body : β)
  | requestException (msg : String)

/-- The message of the `requests.exceptions.HTTPError` raised by
`Response.raise_for_status` for a 4xx/5xx status code. -/
def http_error_msg (status_code : Nat) (reason url : String) : String :=
  if status_code < 500 then s!"{status_code} Client Error: {reason} for url: {url}"
  else s!"{status_code} Server Error: {reason} for url: {url}"

/-- `requests.Response.raise_for_status`: raises `HTTPError` (a subclass
of `RequestException`) exactly for status codes 400–599. -/
def raise_for_status (status_code : Nat) (reason url : String) : Except String Unit :=
  if 400 ≤ status_code ∧ status_code < 600 then
    .error (http_error_msg status_code reason url)
  else .ok ()

/-- `LaylaService.get_job_status` (layla_service.py, lines 107–126).
The explicit 401/403/404/503 branches raise `LaylaError`-family
exceptions, which are not `RequestException`s and therefore escape the
enclosing `try`; the `HTTPError` from `raise_for_status` is a
`RequestException` and is re-raised as `NetworkError`. -/
def get_job_status (job_id : String) (t : HttpOutcome JobStatusResponse) :
    Except PyError JobStatusResponse :=
  match t with
  | .requestException m => .error (.networkError (s!"Failed to get job status: {m}"))
  | .response code reason url _text body =>
    if code = 401 then .error (.authenticationError "Missing API key")
    else if code = 403 then .error (.authenticationError "Invalid API key")
    else if code = 404 then .error (.laylaError (s!"Job not found: {job_id}"))
    else if code = 503 then .error (.networkError "Service unavailable (Redis disconnected)")
    else
      match raise_for_status code reason url with
      | .error m => .error (.networkError (s!"Failed to get job status: {m}"))
      | .ok _ => .ok body

/-- `LaylaService.delete_job` (layla_service.py, lines 128–145). -/
def delete_job (job_id : String) (t : HttpOutcome JobDeleteResponse) :
    Except PyError JobDeleteResponse :=
  match t with
  | .requestException m => .error (.networkError (s!"Failed to delete job: {m}"))
  | .response code reason url _text body =>
    if code = 401 then .error (.authenticationError "Missing API key")
    else if code = 403 then .error (.authenticationError "Invalid API key")
    else if code = 404 then .error (.laylaError (s!"Job not found: {job_id}"))
    else
      match raise_for_status code reason url with
      | .error m => .error (.networkError (s!"Failed to delete job: {m}"))
      | .ok _ => .ok body

/-- `LaylaService._submit_job_request` (layla_service.py, lines 155–183).
The loader and multipart encoding only shape the request, not the
control flow modelled here; the round trip's outcome is the argument. -/
def submit_job_request (t : HttpOutcome OcrJobResponse) :
    Except PyError OcrJobResponse :=
  match t with
  | .requestException m => .error (.networkError (s!"Failed to submit job: {m}"))
  | .response code reason url text body =>
    if code = 401 then .error (.authenticationError "Missing API key")
    else if code = 403 then .error (.authenticationError "Invalid API key")
    else if code = 400 then .error (.laylaError (s!"Invalid request: {text}"))
    else if code = 503 then .error (.networkError "Model service unavailable")
    else
      match raise_for_status code reason url with
      | .error m => .error (.networkError (s!"Failed to submit job: {m}"))
      | .ok _ => .ok body

/-- A sample parsed status body, used by concrete evaluations. -/
def sampleStatus : JobStatusResponse :=
  { job_id := "job-1", status := "processing", model := none,
    progress := none, result := none, error := none }

/-- Result of `_wait_for_completion`, instrumented with the list of
progress-callback invocations performed (in call order).  `ok` is the
`return` path, `err` an escaping exception.  `scriptExhausted` is a
model artifact only: the finite script of server responses ran out
before the loop finished (a real server always answers). -/
inductive WaitResult where
  | ok (result : String) (emitted : List String)
  | err (e : PyError) (emitted : List String)
  | scriptExhausted (emitted : List String)
  deriving Repr, DecidableEq

/-- The loop body of `LaylaService._wait_for_completion`
(layla_service.py, lines 185–220), one script entry consumed per
`get_job_status` call.  `elapsed` is the current `time.time() -
start_time` and advances by `poll_interval` at each sleep;
`hasProgressCallback` is whether `progress_callback` is not `None`;
`last_progress` and `emitted` carry the `last_progress` variable and the
calls made to the progress callback so far.  In the `completed` branch
the source reads `status_response.markdown`, an attribute
`JobStatusResponse` does not declare, so the access itself raises. -/
def wait_for_completion_loop (job_id : String) (timeout : ℤ) (poll_interval : ℚ)
    (hasProgressCallback : Bool) :
    List (HttpOutcome JobStatusResponse) → ℚ → Option String → List String → WaitResult
  | [], elapsed, _last_progress, emitted =>
    if elapsed > (timeout : ℚ) then
      .err (.jobTimeoutError (s!"Job {job_id} exceeded timeout of {timeout}s")) emitted
    else
      .scriptExhausted emitted
  | t :: rest, elapsed, last_progress, emitted =>
    if elapsed > (timeout : ℚ) then
      .err (.jobTimeoutError (s!"Job {job_id} exceeded timeout of {timeout}s")) emitted
    else
      match get_job_status job_id t with
        | .error e => .err e emitted
        | .ok status_response =>
          if status_response.status = "completed" then
            match status_response.getattr "markdown" with
            | .error e => .err e emitted
            | .ok md =>
              match md with
              | none => .err (.laylaError "Job completed but no result returned") emitted
              | some s => .ok s emitted
          else if status_response.status = "failed" then
            let error_msg := pyOrElse status_response.error "Unknown error"
            .err (.jobFailedError (s!"Job {job_id} failed: {error_msg}")) emitted
          else if status_response.status = "processing" then
            let step :=
              if hasProgressCallback = true ∧ pyTruthy status_response.progress = true ∧
                  status_response.progress ≠ last_progress then
                (emitted ++ status_response.progress.toList, status_response.progress)
              else (emitted, last_progress)
            wait_for_completion_loop job_id timeout poll_interval hasProgressCallback
              rest (elapsed + poll_interval) step.2 step.1
          else
            let status := status_response.status
            .err (.laylaError (s!"Unknown job status: {status}")) emitted

/-- `LaylaService._wait_for_completion`: records the start time (so
`elapsed` begins at `0`) and enters the loop with `last_progress =
None`. -/
def wait_for_completion (job_id : String) (timeout : ℤ) (poll_interval : ℚ)
    (hasProgressCallback : Bool) (script : List (HttpOutcome JobStatusResponse)) :
    WaitResult :=
  wait_for_completion_loop job_id timeout poll_interval hasProgressCallback script 0 none []

/-- What a call to `submit_job` does from the caller's point of view:
returns a response, raises an exception, or (model artifact) the script
of server responses ran out. -/
inductive SubmitOutcome where
  | returned (r : OcrJobResponse)
  | raised (e : PyError)
  | scriptExhausted
  deriving Repr, DecidableEq

/-- The `OcrJobResponse` that `submit_job` (and the async worker)
constructs after the polling loop returns `result`
(layla_service.py, lines 56–62 and 91–97). -/
def final_response (job_response : OcrJobResponse) (result : String) : OcrJobResponse :=
  { job_id := job_response.job_id, status := "completed",
    model := job_response.model, message := "Job completed successfully",
    result := some result }

/-- `LaylaService.submit_job` (layla_service.py, lines 32–62).
`submitOutcome` is the outcome of the initial `POST /ocr` round trip,
`script` feeds the polling loop, and `deleteOutcome` is the outcome of
the `DELETE` round trip should `delete_job` be called.  The `_cleanup`
binding mirrors `if auto_delete: try: self.delete_job(...) except
Exception: pass` — the deletion's outcome, success or error, is
discarded. -/
def submit_job (submitOutcome : HttpOutcome OcrJobResponse) (timeout : ℤ)
    (poll_interval : ℚ) (hasProgressCallback : Bool)
    (script : List (HttpOutcome JobStatusResponse))
    (auto_delete : Bool) (deleteOutcome : HttpOutcome JobDeleteResponse) :
    SubmitOutcome :=
  match submit_job_request submitOutcome with
  | .error e => .raised e
  | .ok job_response =>
    match wait_for_completion job_response.job_id timeout poll_interval
        hasProgressCallback script with
    | .scriptExhausted _ => .scriptExhausted
    | .err e _ => .raised e
    | .ok result _ =>
      let _cleanup : Option (Except PyError JobDeleteResponse) :=
        if auto_delete then some (delete_job job_response.job_id deleteOutcome) else none
      .returned (final_response job_response result)

/-- One invocation of the completion callback: the `(response, error)`
argument pair it was called with. -/
structure CallbackCall where
  response : Option OcrJobResponse
  error : Option PyError
  deriving Repr, DecidableEq

/-- The `background_worker` closure inside `asubmit_job`
(layla_service.py, lines 76–100), instrumented with the list of
completion-callback invocations it performs, in order.  `cbRaises`
models the body of the caller-supplied callback: `some e` means that
invocation itself raises `e`.  When the poll loop raises, the `except
Exception` handler invokes the callback with `(None, e)`; if that
invocation raises, the exception escapes into the thread (the
invocation still happened).  When the poll loop returns, the callback
is invoked with `(final_response, None)`; if that invocation raises,
the same `except Exception` handler catches it and invokes the callback
a second time with the new error.  Returns `none` (model artifact) when
the script ran out. -/
def background_worker (job_response : OcrJobResponse) (timeout : ℤ)
    (poll_interval : ℚ) (hasProgressCallback : Bool)
    (script : List (HttpOutcome JobStatusResponse))
    (auto_delete : Bool) (deleteOutcome : HttpOutcome JobDeleteResponse)
    (cbRaises : Option OcrJobResponse → Option PyError → Option PyError) :
    Option (List CallbackCall) :=
  match wait_for_completion job_response.job_id timeout poll_interval
      hasProgressCallback script with
  | .scriptExhausted _ => none
  | .err e _ => some [⟨none, some e⟩]
  | .ok result _ =>
    let _cleanup : Option (Except PyError JobDeleteResponse) :=
      if auto_delete then some (delete_job job_response.job_id deleteOutcome) else none
    let final := final_response job_response result
    match cbRaises (some final) none with
    | none => some [⟨some final, none⟩]
    | some e => some [⟨some final, none⟩, ⟨none, some e⟩]

/-- `LaylaService.asubmit_job` (layla_service.py, lines 64–105): the
value returned to (or the exception raised at) the caller, paired with
the completion-callback invocations the spawned worker performs.  When
the initial submit round trip raises, the exception propagates to the
caller before the worker thread is created, so the invocation list is
empty. -/
def asubmit_job (submitOutcome : HttpOutcome OcrJobResponse) (timeout : ℤ)
    (poll_interval : ℚ) (hasProgressCallback : Bool)
    (script : List (HttpOutcome JobStatusResponse))
    (auto_delete : Bool) (deleteOutcome : HttpOutcome JobDeleteResponse)
    (cbRaises : Option OcrJobResponse → Option PyError → Option PyError) :
    Except PyError OcrJobResponse × Option (List CallbackCall) :=
  match submit_job_request submitOutcome with
  | .error e => (.error e, some [])
  | .ok job_response =>
    (.ok job_response,
      background_worker job_response timeout poll_interval hasProgressCallback
        script auto_delete deleteOutcome cbRaises)

/-- A successful (HTTP 200) answer to a status poll with the given
parsed body. -/
def okStatus (r : JobStatusResponse) : HttpOutcome JobStatusResponse :=
  .response 200 "OK" "http://layla/status/job-1" "" r

/-- A status body reporting `processing` with the given progress. -/
def processingStatus (progress : Option String) : JobStatusResponse :=
  { job_id := "job-1", status := "processing", model := none,
    progress := progress, result := none, error := none }

/-- A status body reporting `completed` with the given result. -/
def completedStatus (result : Option String) : JobStatusResponse :=
  { job_id := "job-1", status := "completed", model := none,
    progress := none, result := result, error := none }

/-- A status body reporting `failed` with the given error message. -/
def failedStatus (error : Option String) : JobStatusResponse :=
  { job_id := "job-1", status := "failed", model := none,
    progress := none, result := none, error := error }

/-- A successful (HTTP 200) status poll parses straight to its body. -/
theorem get_job_status_okStatus (job_id : String) (r : JobStatusResponse) :
    get_job_status job_id (okStatus r) = .ok r := rfl

/-- The `completed` branch of the loop always raises: `JobStatusResponse`
has no `markdown` attribute, so `status_response.markdown` raises the
builtin `AttributeError` before either the `None` check or the `return`
is reached. -/
theorem getattr_markdown (r : JobStatusResponse) :
    r.getattr "markdown" =
      .error (.attributeError "JobStatusResponse object has no attribute markdown") := by
  simp +decide [JobStatusResponse.getattr]

/-- Because of the `markdown` attribute slip, no run of the polling loop
can reach the `return` statement: every terminating run raises. -/
theorem wait_loop_never_ok (job_id : String) (timeout : ℤ) (poll_interval : ℚ)
    (hpc : Bool) (script : List (HttpOutcome JobStatusResponse)) :
    ∀ (elapsed : ℚ) (last_progress : Option String) (emitted : List String)
      (r : String) (em : List String),
      wait_for_completion_loop job_id timeout poll_interval hpc script
        elapsed last_progress emitted ≠ .ok r em := by
  induction script with
  | nil =>
    intro elapsed last_progress emitted r em
    simp only [wait_for_completion_loop]
    split <;> simp
  | cons t rest ih =>
    intro elapsed last_progress emitted r em
    simp only [wait_for_completion_loop]
    split
    · simp
    · match hg : get_job_status job_id t with
      | .error e => simp
      | .ok sr =>
        simp only []
        split
        · rw [getattr_markdown]
          simp
        · split
          · simp
          · split
            · exact ih _ _ _ r em
            · simp

/-- Corollary of the `markdown` slip at the `wait_for_completion` level. -/
theorem wait_never_ok (job_id : String) (timeout : ℤ) (poll_interval : ℚ)
    (hpc : Bool) (script : List (HttpOutcome JobStatusResponse))
    (r : String) (em : List String) :
    wait_for_completion job_id timeout poll_interval hpc script ≠ .ok r em :=
  wait_loop_never_ok job_id timeout poll_interval hpc script 0 none [] r em

/-- Progress values the loop reports, given the previously remembered
value: each incoming value is reported exactly when it differs from the
last value reported.  This is the specification-side reading of
"invoked once per distinct consecutive progress value". -/
def reportedProgress (last : Option String) : List String → List String
  | [] => []
  | p :: rest =>
    if some p ≠ last then p :: reportedProgress (some p) rest
    else reportedProgress last rest

/-- After a first report of `a`, the reported values are exactly
`List.destutter'` of the remaining stream. -/
theorem destutter_eq_reportedProgress (l : List String) :
    ∀ a : String, List.destutter' (· ≠ ·) a l = a :: reportedProgress (some a) l := by
  induction l with
  | nil => intro a; simp [List.destutter'_nil, reportedProgress]
  | cons p rest ih =>
    intro a
    rw [List.destutter'_cons]
    by_cases h : a = p
    · subst h
      simp [reportedProgress, ih]
    · rw [if_pos h, ih p]
      simp [reportedProgress, Ne.symm h]

/-- Starting from no remembered value, the reported values are exactly
`List.destutter (· ≠ ·)` of the progress stream. -/
theorem reportedProgress_none_eq_destutter (l : List String) :
    reportedProgress none l = List.destutter (· ≠ ·) l := by
  cases l with
  | nil => simp [reportedProgress, List.destutter_nil]
  | cons p rest =>
    rw [List.destutter_cons', destutter_eq_reportedProgress]
    simp [reportedProgress]

/-- One processing script entry carrying progress `p`. -/
def processingPoll (p : String) : HttpOutcome JobStatusResponse :=
  okStatus (processingStatus (some p))

/-- Running the loop (with a progress callback installed and
`poll_interval = 1`) over an all-`processing` script whose non-empty
progress values are `ps` reports exactly `reportedProgress last ps`,
provided the timeout cannot fire during the run. -/
theorem wait_loop_reports_progress (job_id : String) (timeout : ℤ) :
    ∀ (ps : List String) (elapsed : ℚ) (last : Option String) (em : List String),
      (∀ p ∈ ps, p ≠ "") →
      elapsed + ps.length ≤ (timeout : ℚ) →
      wait_for_completion_loop job_id timeout 1 true (ps.map processingPoll)
          elapsed last em =
        .scriptExhausted (em ++ reportedProgress last ps) := by
  intro ps
  induction ps with
  | nil =>
    intro elapsed last em _ hle
    simp only [List.map_nil, wait_for_completion_loop, reportedProgress, List.append_nil]
    rw [if_neg]
    simp only [List.length_nil, Nat.cast_zero, add_zero] at hle
    exact not_lt.mpr hle
  | cons p rest ih =>
    intro elapsed last em hne hle
    have hnt : ¬ elapsed > (timeout : ℚ) := by
      simp only [List.length_cons] at hle
      push_cast at hle
      refine not_lt.mpr ?_
      have : (0 : ℚ) ≤ (rest.length : ℚ) + 1 := by positivity
      linarith
    simp only [List.map_cons, wait_for_completion_loop, processingPoll,
      get_job_status_okStatus]
    rw [if_neg hnt]
    have hps : p ≠ "" := hne p (List.mem_cons_self p rest)
    simp only [processingStatus]
    rw [if_neg (by decide), if_neg (by decide)]
    simp only [if_true]
    have htr : pyTruthy (some p) = true := by simp [pyTruthy, hps]
    have hrec := ih (elapsed + 1) (some p) (em ++ [p])
      (fun q hq => hne q (List.mem_cons_of_mem p hq))
    have hrec' := ih (elapsed + 1) last em
      (fun q hq => hne q (List.mem_cons_of_mem p hq))
    have hlen : elapsed + 1 + rest.length ≤ (timeout : ℚ) := by
      simp only [List.length_cons] at hle
      push_cast at hle ⊢
      linarith
    by_cases hdiff : (some p : Option String) ≠ last
    · rw [if_pos ⟨trivial, htr, hdiff⟩]
      simp only [Option.toList_some]
      rw [hrec hlen]
      simp [reportedProgress, hdiff]
    · rw [if_neg (fun hc => hdiff hc.2.2)]
      rw [hrec' hlen]
      simp only [reportedProgress]
      rw [if_neg hdiff]

/-- Timeout induction: over an all-`processing` script, the loop's
elapsed clock grows by `poll_interval` at each iteration, and as soon as
it strictly exceeds `timeout` the start-of-iteration check fires with a
`JobTimeoutError`.  `n` iterations suffice once
`elapsed + n * poll_interval` passes `timeout`. -/
theorem wait_loop_processing_times_out (job_id : String) (timeout : ℤ)
    (poll_interval : ℚ) (hpc : Bool) (r : JobStatusResponse)
    (hr : r.status = "processing") :
    ∀ (n : ℕ) (elapsed : ℚ) (last : Option String) (em : List String),
      (timeout : ℚ) < elapsed + n * poll_interval →
      ∃ emFinal,
        wait_for_completion_loop job_id timeout poll_interval hpc
            (List.replicate n (okStatus r)) elapsed last em =
          .err (.jobTimeoutError (s!"Job {job_id} exceeded timeout of {timeout}s")) emFinal := by
  intro n
  induction n with
  | zero =>
    intro elapsed last em h
    simp only [Nat.cast_zero, zero_mul, add_zero] at h
    refine ⟨em, ?_⟩
    simp only [List.replicate, wait_for_completion_loop]
    rw [if_pos h]
  | succ n ih =>
    intro elapsed last em h
    by_cases he : elapsed > (timeout : ℚ)
    · refine ⟨em, ?_⟩
      simp only [List.replicate, wait_for_completion_loop]
      rw [if_pos he]
    · simp only [List.replicate, wait_for_completion_loop, get_job_status_okStatus]
      rw [if_neg he, hr]
      rw [if_neg (by decide), if_neg (by decide)]
      simp only [if_true]
      exact ih (elapsed + poll_interval) _ _ (by push_cast at h ⊢; linarith)

/-- The parsed body of a successful submit round trip, used in concrete
evaluations: the service answered `{job_id:"job-1", status:"queued", ...}`. -/
def submittedJob : OcrJobResponse :=
  { job_id := "job-1", status := "queued", model := "doc-qwen-3b",
    message := "Job submitted", result := none }

/-- C1: the claim says a polled `completed` payload returns its `result`
field, and raises the protocol violation `LaylaError("Job completed but
no result returned")` when `result` is absent.  The code instead reads
`status_response.markdown` — an attribute `JobStatusResponse` does not
declare — so on every `completed` payload, with or without a `result`,
the loop raises the builtin `AttributeError` before either promised
behaviour can happen. -/
theorem C1_completed_payload_raises_attribute_error :
    wait_for_completion "job-1" 3600 2 false
        [okStatus (completedStatus (some "# doc"))] =
      .err (.attributeError "JobStatusResponse object has no attribute markdown") [] ∧
    wait_for_completion "job-1" 3600 2 false
        [okStatus (completedStatus none)] =
      .err (.attributeError "JobStatusResponse object has no attribute markdown") [] :=
  ⟨rfl, rfl⟩

/-- C2 counterexample: HTTP 404 on a status fetch raises the *base*
class `LaylaError` itself, the very same exception class that protocol
violations (here, an unknown status value) raise, so there is no
distinct NotFound kind a caller could branch on. -/
theorem C2_no_distinct_notfound_kind_counterexample :
    get_job_status "job-1"
        (.response 404 "Not Found" "http://layla/status/job-1" "" sampleStatus) =
      .error (.laylaError "Job not found: job-1") ∧
    wait_for_completion "job-1" 3600 2 false
        [okStatus { sampleStatus with status := "queued" }] =
      .err (.laylaError "Unknown job status: queued") [] ∧
    PyError.className (.laylaError "Job not found: job-1") =
      PyError.className (.laylaError "Unknown job status: queued") :=
  ⟨rfl, rfl, rfl⟩

/-- C2 amended: a 404 on `get_job_status` or `delete_job` raises the
base class `LaylaError` with message `Job not found: {job_id}`; the
taxonomy is a class hierarchy rooted in `LaylaError`, and the 404 error
is of class `LaylaError` itself, shared with protocol-violation errors,
so callers can branch only on the message, not on a distinct kind. -/
theorem C2_http404_raises_base_layla_error (job_id reason url text : String)
    (sbody : JobStatusResponse) (dbody : JobDeleteResponse) :
    get_job_status job_id (.response 404 reason url text sbody) =
      .error (.laylaError (s!"Job not found: {job_id}")) ∧
    delete_job job_id (.response 404 reason url text dbody) =
      .error (.laylaError (s!"Job not found: {job_id}")) ∧
    PyError.className (.laylaError (s!"Job not found: {job_id}")) = "LaylaError" :=
  ⟨rfl, rfl, rfl⟩

set_option maxRecDepth 8000 in
/-- C3 counterexample: an HTTP 500 on a status fetch is converted by
`raise_for_status` into an `HTTPError`, which the blanket
`except requests.RequestException` handler re-raises as `NetworkError` —
one of the named kinds — and its message does not contain the response
body. -/
theorem C3_unhandled_status_is_network_error_counterexample :
    get_job_status "job-1"
        (.response 500 "Internal Server Error" "http://layla/status/job-1"
          "body text from server" sampleStatus) =
      .error (.networkError
        "Failed to get job status: 500 Server Error: Internal Server Error for url: http://layla/status/job-1") ∧
    PyError.className (.networkError
        "Failed to get job status: 500 Server Error: Internal Server Error for url: http://layla/status/job-1") =
      "NetworkError" ∧
    ¬ List.IsInfix "body text from server".toList
        "Failed to get job status: 500 Server Error: Internal Server Error for url: http://layla/status/job-1".toList :=
  ⟨rfl, rfl, by decide⟩

/-- C3 amended: every HTTP status in 400–599 outside the explicitly
handled codes falls through to `raise_for_status`, whose `HTTPError` is
caught by the blanket `except requests.RequestException` handler and
re-raised as `NetworkError`; the resulting message carries the raw
status code, reason and url (not the response body).  This covers all
three modelled round trips. -/
theorem C3_unhandled_http_status_becomes_network_error
    (job_id reason url text m : String) (code : ℕ)
    (sbody : JobStatusResponse) (obody : OcrJobResponse) (dbody : JobDeleteResponse)
    (h4 : 400 ≤ code) (h6 : code < 600)
    (h400 : code ≠ 400) (h401 : code ≠ 401) (h403 : code ≠ 403)
    (h404 : code ≠ 404) (h503 : code ≠ 503)
    (hm : m = http_error_msg code reason url) :
    get_job_status job_id (.response code reason url text sbody) =
      .error (.networkError (s!"Failed to get job status: {m}")) ∧
    submit_job_request (.response code reason url text obody) =
      .error (.networkError (s!"Failed to submit job: {m}")) ∧
    delete_job job_id (.response code reason url text dbody) =
      .error (.networkError (s!"Failed to delete job: {m}")) := by
  subst hm
  have hrs : raise_for_status code reason url = .error (http_error_msg code reason url) := by
    simp [raise_for_status, h4, h6]
  refine ⟨?_, ?_, ?_⟩
  · simp only [get_job_status]
    rw [if_neg h401, if_neg h403, if_neg h404, if_neg h503, hrs]
  · simp only [submit_job_request]
    rw [if_neg h401, if_neg h403, if_neg h400, if_neg h503, hrs]
  · simp only [delete_job]
    rw [if_neg h401, if_neg h403, if_neg h404, hrs]

/-- C3 witness: the amended theorem applied at status code 500. -/
theorem C3_unhandled_http_status_witness :
    (400 ≤ 500 ∧ 500 < 600 ∧ 500 ≠ 400 ∧ 500 ≠ 401 ∧ 500 ≠ 403 ∧ 500 ≠ 404 ∧ 500 ≠ 503 ∧
      "500 Server Error: boom for url: u" = http_error_msg 500 "boom" "u") ∧
    get_job_status "job-1" (.response 500 "boom" "u" "" sampleStatus) =
      .error (.networkError
        "Failed to get job status: 500 Server Error: boom for url: u") :=
  ⟨⟨by decide, by decide, by decide, by decide, by decide, by decide, by decide, rfl⟩,
    (C3_unhandled_http_status_becomes_network_error "job-1" "boom"
      "u" "" "500 Server Error: boom for url: u" 500 sampleStatus submittedJob
      ⟨"job-1", "deleted"⟩ (by decide) (by decide) (by decide) (by decide)
      (by decide) (by decide) (by decide) rfl).1⟩

/-- C4: on every terminating run of `asubmit_job`'s background worker
the completion callback is invoked exactly once — with
`(final_response, None)` were the poll loop ever to succeed, and with
`(None, error)` when it fails — never zero times and never twice, for
any caller-supplied callback behaviour (including one whose own body
raises).  The poll loop in fact never succeeds (the `markdown` slip),
so the single invocation is always the error-slot one, and the
double-invocation hazard in the worker's `except` handler is
unreachable. -/
theorem C4_completion_callback_invoked_exactly_once
    (job_response : OcrJobResponse) (timeout : ℤ) (poll_interval : ℚ) (hpc : Bool)
    (script : List (HttpOutcome JobStatusResponse)) (auto_delete : Bool)
    (deleteOutcome : HttpOutcome JobDeleteResponse)
    (cbRaises : Option OcrJobResponse → Option PyError → Option PyError)
    (calls : List CallbackCall)
    (h : background_worker job_response timeout poll_interval hpc script
          auto_delete deleteOutcome cbRaises = some calls) :
    calls.length = 1 ∧
    (∀ res em,
      wait_for_completion job_response.job_id timeout poll_interval hpc script = .ok res em →
      calls = [⟨some (final_response job_response res), none⟩]) ∧
    (∀ e em,
      wait_for_completion job_response.job_id timeout poll_interval hpc script = .err e em →
      calls = [⟨none, some e⟩]) := by
  unfold background_worker at h
  cases hw : wait_for_completion job_response.job_id timeout poll_interval hpc script with
  | ok res em => exact absurd hw (wait_never_ok _ _ _ _ _ _ _)
  | err e em =>
    rw [hw] at h
    simp only [Option.some.injEq] at h
    subst h
    refine ⟨rfl, ?_, ?_⟩
    · intro res em' hcontra
      simp at hcontra
    · intro e' em' heq
      injection heq with h1 h2
      rw [h1]
  | scriptExhausted em =>
    rw [hw] at h
    simp at h

/-- C4 witness: a worker run over a single `failed` poll makes exactly
one callback invocation, carrying the error. -/
theorem C4_completion_callback_witness :
    background_worker submittedJob 3600 2 false
        [okStatus (failedStatus (some "boom"))] false
        (.requestException "unused") (fun _ _ => none) =
      some [⟨none, some (.jobFailedError "Job job-1 failed: boom")⟩] ∧
    [(⟨none, some (.jobFailedError "Job job-1 failed: boom")⟩ : CallbackCall)].length = 1 :=
  ⟨rfl,
    (C4_completion_callback_invoked_exactly_once submittedJob 3600 2 false
      [okStatus (failedStatus (some "boom"))] false (.requestException "unused")
      (fun _ _ => none) _ rfl).1⟩

/-- C5: over any all-`processing` poll sequence with (truthy) progress
values `ps`, the progress callback is invoked exactly on
`List.destutter (· ≠ ·) ps` — once per distinct consecutive value — so
no two consecutive invocations carry the same value, and the sequence
`["1/10","1/10","2/10","2/10","3/10"]` yields exactly the invocations
`["1/10","2/10","3/10"]` in order. -/
theorem C5_progress_callback_dedup :
    (∀ ps : List String, (∀ p ∈ ps, p ≠ "") →
      wait_for_completion "job-1" (ps.length : ℤ) 1 true (ps.map processingPoll) =
        .scriptExhausted (List.destutter (· ≠ ·) ps) ∧
      List.Chain' (· ≠ ·) (List.destutter (· ≠ ·) ps)) ∧
    wait_for_completion "job-1" 3600 2 true
        (["1/10", "1/10", "2/10", "2/10", "3/10"].map processingPoll) =
      .scriptExhausted ["1/10", "2/10", "3/10"] := by
  constructor
  · intro ps hps
    constructor
    · have h := wait_loop_reports_progress "job-1" (ps.length : ℤ) ps 0 none [] hps
        (by push_cast; linarith)
      rw [wait_for_completion, h, List.nil_append, reportedProgress_none_eq_destutter]
    · exact List.destutter_is_chain' _ _
  · norm_num +decide [wait_for_completion, wait_for_completion_loop, get_job_status,
      raise_for_status, okStatus, processingPoll, processingStatus, pyTruthy, pyOrElse,
      JobStatusResponse.getattr, http_error_msg]

/-- C5 witness: the universal part of the dedup theorem applied to the
concrete progress sequence from the claim. -/
theorem C5_progress_callback_dedup_witness :
    (∀ p ∈ ["1/10", "1/10", "2/10", "2/10", "3/10"], p ≠ "") ∧
    wait_for_completion "job-1"
        ((["1/10", "1/10", "2/10", "2/10", "3/10"] : List String).length : ℤ) 1 true
        (["1/10", "1/10", "2/10", "2/10", "3/10"].map processingPoll) =
      .scriptExhausted (List.destutter (· ≠ ·) ["1/10", "1/10", "2/10", "2/10", "3/10"]) :=
  ⟨by decide,
    (C5_progress_callback_dedup.1 ["1/10", "1/10", "2/10", "2/10", "3/10"] (by decide)).1⟩

/-- C6: when every status fetch reports `processing` and the poll
interval is positive, the loop terminates by raising
`JobTimeoutError`, whose message contains the job id and the timeout
value; `n` polls suffice as soon as `n * poll_interval` exceeds the
timeout, reflecting the strict elapsed-time check at the start of each
iteration. -/
theorem C6_all_processing_times_out (job_id : String) (timeout : ℤ)
    (poll_interval : ℚ) (hpc : Bool) (r : JobStatusResponse) (n : ℕ)
    (hr : r.status = "processing") (_hpos : 0 < poll_interval)
    (hn : (timeout : ℚ) < n * poll_interval) :
    ∃ em, wait_for_completion job_id timeout poll_interval hpc
        (List.replicate n (okStatus r)) =
      .err (.jobTimeoutError (s!"Job {job_id} exceeded timeout of {timeout}s")) em :=
  wait_loop_processing_times_out job_id timeout poll_interval hpc r hr n 0 none []
    (by simpa using hn)

/-- C6 witness: the spec's own scenario — `timeout = 5`,
`poll_interval = 2`, a server that never leaves `processing` — times
out (three polls suffice, since `3 * 2 > 5`). -/
theorem C6_all_processing_times_out_witness :
    ((processingStatus (some "1/10")).status = "processing" ∧
      (0 : ℚ) < 2 ∧ ((5 : ℤ) : ℚ) < 3 * 2) ∧
    ∃ em, wait_for_completion "job-1" 5 2 false
        (List.replicate 3 (okStatus (processingStatus (some "1/10")))) =
      .err (.jobTimeoutError "Job job-1 exceeded timeout of 5s") em :=
  ⟨⟨rfl, by norm_num, by norm_num⟩,
    C6_all_processing_times_out "job-1" 5 2 false (processingStatus (some "1/10")) 3
      rfl (by norm_num) (by norm_num)⟩

/-- C7 counterexample: a `failed` payload whose `error` field is present
but empty does not propagate the payload's (empty) error message: the
Python-truthiness `or` replaces it with `Unknown error`, so the claim's
"carries the payload's error message" fails at `error = ""`. -/
theorem C7_failed_empty_error_counterexample :
    wait_for_completion "job-1" 3600 2 false [okStatus (failedStatus (some ""))] =
      .err (.jobFailedError "Job job-1 failed: Unknown error") [] ∧
    "Job job-1 failed: Unknown error" ≠ "Job job-1 failed: " :=
  ⟨rfl, by decide⟩

/-- C7 amended: a `failed` payload raises `JobFailedError` with message
`Job {job_id} failed: {m}`, where `m` is the payload's `error` string
when that is present and non-empty, and `"Unknown error"` when the
field is absent *or empty* (Python truthiness of `error or "Unknown
error"`). -/
theorem C7_failed_status_raises_job_failed (job_id : String) (timeout : ℤ)
    (poll_interval : ℚ) (hpc : Bool) (r : JobStatusResponse)
    (rest : List (HttpOutcome JobStatusResponse)) (m : String)
    (ht : 0 ≤ timeout) (hr : r.status = "failed")
    (hm : m = match r.error with
      | none => "Unknown error"
      | some s => if s = "" then "Unknown error" else s) :
    wait_for_completion job_id timeout poll_interval hpc (okStatus r :: rest) =
      .err (.jobFailedError (s!"Job {job_id} failed: {m}")) [] := by
  have hnt : ¬ (0 : ℚ) > (timeout : ℚ) := by
    simp only [not_lt]
    exact_mod_cast ht
  have hmm : pyOrElse r.error "Unknown error" = m := by
    rw [hm]
    cases r.error with
    | none => rfl
    | some s => rfl
  rw [wait_for_completion]
  simp only [wait_for_completion_loop, get_job_status_okStatus]
  rw [if_neg hnt, hr, if_neg (by decide), if_pos rfl, hmm]

/-- C7 witness: the amended theorem applied to the spec's own scenario
`{status:"failed", error:"bad scan"}`. -/
theorem C7_failed_status_witness :
    ((0 : ℤ) ≤ 3600 ∧ (failedStatus (some "bad scan")).status = "failed" ∧
      "bad scan" = match (failedStatus (some "bad scan")).error with
        | none => "Unknown error"
        | some s => if s = "" then "Unknown error" else s) ∧
    wait_for_completion "job-1" 3600 2 false [okStatus (failedStatus (some "bad scan"))] =
      .err (.jobFailedError "Job job-1 failed: bad scan") [] :=
  ⟨⟨by decide, rfl, by decide⟩,
    C7_failed_status_raises_job_failed "job-1" 3600 2 false
      (failedStatus (some "bad scan")) [] "bad scan" (by decide) rfl (by decide)⟩

/-- C8: the claim says that with `auto_delete` set, a completed job
whose cleanup deletion fails still returns the successful
`OcrJobResponse` unchanged.  The swallowing `except Exception: pass`
does exist, but the `markdown` slip in the poll loop means a completed
job raises `AttributeError` before `submit_job` ever reaches the
cleanup or the return: the promised successful result is unreachable.
Here the server completes the job with a result and the deletion would
answer 404, yet `submit_job` raises instead of returning. -/
theorem C8_auto_delete_completed_run_raises :
    submit_job (.response 200 "OK" "http://layla/ocr" "" submittedJob) 3600 2 false
        [okStatus (completedStatus (some "# md"))] true
        (.response 404 "Not Found" "http://layla/job/job-1" "" ⟨"job-1", "deleted"⟩) =
      .raised (.attributeError "JobStatusResponse object has no attribute markdown") ∧
    ∀ r : OcrJobResponse,
      submit_job (.response 200 "OK" "http://layla/ocr" "" submittedJob) 3600 2 false
          [okStatus (completedStatus (some "# md"))] true
          (.response 404 "Not Found" "http://layla/job/job-1" "" ⟨"job-1", "deleted"⟩) ≠
        .returned r := by
  have hv : submit_job (.response 200 "OK" "http://layla/ocr" "" submittedJob) 3600 2 false
      [okStatus (completedStatus (some "# md"))] true
      (.response 404 "Not Found" "http://layla/job/job-1" "" ⟨"job-1", "deleted"⟩) =
      .raised (.attributeError "JobStatusResponse object has no attribute markdown") := rfl
  refine ⟨hv, fun r => ?_⟩
  rw [hv]
  intro h
  simp at h

/-- C9: when the initial submit round trip inside `asubmit_job` raises,
the exception propagates directly to the caller, the worker is never
started, and the completion callback is never invoked (the invocation
list is empty) — regardless of timeout, script, auto-delete setting or
callback behaviour. -/
theorem C9_submit_failure_propagates_without_callback
    (submitOutcome : HttpOutcome OcrJobResponse) (timeout : ℤ) (poll_interval : ℚ)
    (hpc : Bool) (script : List (HttpOutcome JobStatusResponse))
    (auto_delete : Bool) (deleteOutcome : HttpOutcome JobDeleteResponse)
    (cbRaises : Option OcrJobResponse → Option PyError → Option PyError)
    (e : PyError) (h : submit_job_request submitOutcome = .error e) :
    asubmit_job submitOutcome timeout poll_interval hpc script
        auto_delete deleteOutcome cbRaises =
      (.error e, some []) := by
  unfold asubmit_job
  rw [h]

/-- C9 witness: a transport exception on the submit round trip. -/
theorem C9_submit_failure_witness :
    submit_job_request (.requestException "connection refused") =
      .error (.networkError "Failed to submit job: connection refused") ∧
    asubmit_job (.requestException "connection refused") 3600 2 false [] false
        (.requestException "unused") (fun _ _ => none) =
      (.error (.networkError "Failed to submit job: connection refused"), some []) :=
  ⟨rfl,
    C9_submit_failure_propagates_without_callback (.requestException "connection refused")
      3600 2 false [] false (.requestException "unused") (fun _ _ => none)
      (.networkError "Failed to submit job: connection refused") rfl⟩

/-- C10: with `timeout = 0` the strict `elapsed > timeout` check does
not fire before the first fetch (so no `JobTimeoutError` is raised, as
the claim's first half says), but the claim's promised success on a
`completed`-with-result first fetch does not happen: the `markdown`
slip makes the fetch raise `AttributeError` instead of returning the
result. -/
theorem C10_zero_timeout_completed_first_fetch :
    wait_for_completion "job-1" 0 2 false [okStatus (completedStatus (some "x"))] =
      .err (.attributeError "JobStatusResponse object has no attribute markdown") [] ∧
    ∀ msg em,
      wait_for_completion "job-1" 0 2 false [okStatus (completedStatus (some "x"))] ≠
        .err (.jobTimeoutError msg) em ∧
      wait_for_completion "job-1" 0 2 false [okStatus (completedStatus (some "x"))] ≠
        .ok "x" em := by
  have hv : wait_for_completion "job-1" 0 2 false [okStatus (completedStatus (some "x"))] =
      .err (.attributeError "JobStatusResponse object has no attribute markdown") [] := rfl
  refine ⟨hv, fun msg em => ⟨?_, ?_⟩⟩
  · rw [hv]
    intro h
    injection h with h1 h2
    cases h1
  · exact wait_never_ok "job-1" 0 2 false [okStatus (completedStatus (some "x"))] "x" em
